import Mathlib

/-!
Verification of the Pharmagellan biotech startup pipeline NPV model
(src/model.py) against its natural-language specification.

All dollar amounts, rates and probabilities are modelled as exact
rationals (ℚ).  The Python float `nan` sentinel returned by
`calculate_roi` on zero investment is modelled as `none : Option ℚ`.
-/

namespace PharmaModel

/-- `DEFAULT_DISCOUNT_RATE = 0.15`. -/
def DEFAULT_DISCOUNT_RATE : ℚ := 15 / 100

/-- The four clinical phases appearing in every table of the model. -/
inductive Phase where
  | preclinical
  | phase1
  | phase2
  | phase3
deriving DecidableEq, Repr

/-- `PHASE_PROBABILITIES`: success probabilities for non-rare diseases. -/
def PHASE_PROBABILITIES : Phase → ℚ
  | .preclinical => 33 / 100
  | .phase1 => 60 / 100
  | .phase2 => 36 / 100
  | .phase3 => 63 / 100

/-- `RARE_DISEASE_PHASE_PROBABILITIES`: success probabilities for rare diseases. -/
def RARE_DISEASE_PHASE_PROBABILITIES : Phase → ℚ
  | .preclinical => 40 / 100
  | .phase1 => 70 / 100
  | .phase2 => 45 / 100
  | .phase3 => 80 / 100

/-- `CLINICAL_DEVELOPMENT_COSTS`: the fixed phase→cost table, in key order. -/
def CLINICAL_DEVELOPMENT_COSTS : List (Phase × ℚ) :=
  [(.preclinical, 30000000), (.phase1, 10000000),
   (.phase2, 50000000), (.phase3, 150000000)]

/-- `calculate_npv(cash_flows, discount_rate)`:
`sum(cf / ((1 + discount_rate) ** t) for t, cf in enumerate(cash_flows, start=1))`. -/
def calculate_npv (cash_flows : List ℚ) (discount_rate : ℚ) : ℚ :=
  ((cash_flows.enumFrom 1).map
    (fun p => p.2 / (1 + discount_rate) ^ p.1)).sum

/-- `calculate_roi(npv, total_investment)`:
`(npv - total_investment) / total_investment * 100 if total_investment > 0
else float('nan')`; the `nan` sentinel is `none`. -/
def calculate_roi (npv : ℚ) (total_investment : ℚ) : Option ℚ :=
  if total_investment > 0 then
    some ((npv - total_investment) / total_investment * 100)
  else
    none

/-- `np.linspace(a, b, n)` over exact rationals: `n` evenly spaced samples
from `a` to `b` inclusive; for `n = 1` numpy returns just `[a]`. -/
def linspace (a b : ℚ) (n : ℕ) : List ℚ :=
  if n = 1 then [a]
  else (List.range n).map (fun (i : ℕ) => a + (b - a) * (i : ℚ) / ((n : ℚ) - 1))

/-- Ramp-up phase: `[peak_revenue * p for p in np.linspace(0.1, 1.0, ramp_years)]`. -/
def ramp_curve (peak_revenue : ℚ) (ramp_years : ℕ) : List ℚ :=
  (linspace (1 / 10) 1 ramp_years).map (fun p => peak_revenue * p)

/-- Peak phase: `[peak_revenue] * peak_years`. -/
def peak_curve (peak_revenue : ℚ) (peak_years : ℕ) : List ℚ :=
  List.replicate peak_years peak_revenue

/-- Decline phase:
`[peak_revenue * ((1 - decline_rate) ** year) for year in range(1, decline_years + 1)]`. -/
def decline_curve (peak_revenue decline_rate : ℚ) (decline_years : ℕ) : List ℚ :=
  (List.range decline_years).map
    (fun year => peak_revenue * (1 - decline_rate) ^ (year + 1))

/-- `calculate_revenue_curve`: peak revenue from population, price and
penetration; then ramp ∥ peak ∥ decline. -/
def calculate_revenue_curve (eligible_population price_per_patient
    market_penetration : ℚ) (ramp_years peak_years decline_years : ℕ)
    (decline_rate : ℚ) : List ℚ :=
  let peak_revenue := eligible_population * price_per_patient *
    (market_penetration / 100)
  ramp_curve peak_revenue ramp_years ++ peak_curve peak_revenue peak_years ++
    decline_curve peak_revenue decline_rate decline_years

/-- `simulate_pipeline_cash_flows`: `delay_years` entries of `-500e6`
followed by the revenue curve. -/
def simulate_pipeline_cash_flows (eligible_population price_per_patient
    market_penetration : ℚ) (delay_years ramp_years peak_years
    decline_years : ℕ) (decline_rate : ℚ) : List ℚ :=
  List.replicate delay_years (-500000000) ++
    calculate_revenue_curve eligible_population price_per_patient
      market_penetration ramp_years peak_years decline_years decline_rate

/-- Result record of `estimate_funding_requirements`. -/
structure FundingRequirement where
  total_funding : ℚ
  breakdown : List (Phase × ℚ)
deriving DecidableEq, Repr

/-- `estimate_funding_requirements(pipeline_cash_flows, phase_costs)`:
filters the negative entries (unused), rebuilds the phase→cost table and
returns its sum together with the table. -/
def estimate_funding_requirements (pipeline_cash_flows : List ℚ)
    (phase_costs : List (Phase × ℚ)) : FundingRequirement :=
  let pre_revenue_cash_flows := pipeline_cash_flows.filter (fun cf => cf < 0)
  let breakdown := phase_costs.map (fun p => (p.1, p.2))
  { total_funding := (breakdown.map (fun p => p.2)).sum
    breakdown := breakdown }

/-- The risk-adjustment step of `main`:
`[cf * phase_probability for cf in cash_flows]`. -/
def risk_adjust (cash_flows : List ℚ) (phase_probability : ℚ) : List ℚ :=
  cash_flows.map (fun cf => cf * phase_probability)

/-- One pipeline asset as collected by the input boundary in `main`. -/
structure Asset where
  rare_disease : Bool
  phase : Phase
  eligible_population : ℚ
  market_penetration : ℚ
  price_per_patient : ℚ
  ramp_years : ℕ
  peak_years : ℕ
  decline_years : ℕ
  decline_rate : ℚ
deriving DecidableEq, Repr

/-- Phase probability resolved in `main` from the rarity flag. -/
def assetProbability (a : Asset) : ℚ :=
  if a.rare_disease then RARE_DISEASE_PHASE_PROBABILITIES a.phase
  else PHASE_PROBABILITIES a.phase

/-- The raw (pre-risk-adjustment) series `main` simulates for an asset,
with `delay_years = 0` as in the caller. -/
def assetRawCashFlows (a : Asset) : List ℚ :=
  simulate_pipeline_cash_flows a.eligible_population a.price_per_patient
    a.market_penetration 0 a.ramp_years a.peak_years a.decline_years
    a.decline_rate

/-- One iteration of the aggregation loop in `main`: extend the portfolio
series with the risk-adjusted asset series and accumulate
`|sum of negative raw entries|` into `total_investment`. -/
def aggregateStep (acc : List ℚ × ℚ) (a : Asset) : List ℚ × ℚ :=
  let cash_flows := assetRawCashFlows a
  (acc.1 ++ risk_adjust cash_flows (assetProbability a),
   acc.2 + |((cash_flows.filter (fun cf => cf < 0)).sum)|)

/-- The aggregation loop of `main` over the portfolio: returns
`(pipeline_cash_flows, total_investment)`. -/
def aggregate (assets : List Asset) : List ℚ × ℚ :=
  assets.foldl aggregateStep ([], 0)

/-- `npv_pipeline` as computed at the end of `main`. -/
def portfolio_npv (assets : List Asset) : ℚ :=
  calculate_npv (aggregate assets).1 DEFAULT_DISCOUNT_RATE

/-- `roi` as computed at the end of `main`. -/
def portfolio_roi (assets : List Asset) : Option ℚ :=
  calculate_roi (portfolio_npv assets) (aggregate assets).2

/-! ### Helper lemmas -/

lemma npv_enumFrom_sum (l : List ℚ) (r : ℚ) (n : ℕ) :
    ((l.enumFrom n).map (fun p => p.2 / (1 + r) ^ p.1)).sum
      = ∑ i ∈ Finset.range l.length, l.getD i 0 / (1 + r) ^ (n + i) := by
  induction l generalizing n with
  | nil => simp
  | cons a t ih =>
      rw [List.enumFrom_cons, List.map_cons, List.sum_cons, ih (n + 1),
        List.length_cons, Finset.sum_range_succ']
      simp only [List.getD_cons_succ, List.getD_cons_zero, add_zero]
      rw [add_comm]
      congr 1
      refine Finset.sum_congr rfl fun i _ => ?_
      ring_nf

lemma linspace_length (a b : ℚ) (n : ℕ) : (linspace a b n).length = n := by
  unfold linspace
  split
  · simp [*]
  · rw [List.length_map, List.length_range]

/-! ### Claims -/

/-- C3: `calculate_npv` equals `Σ_{t=1}^{n} cf[t−1] / (1+r)^t` — the first
element is discounted one full period; in particular
`NPV([100], 0.0) = 100.0` and `NPV([100], 1.0) = 50.0`. -/
theorem npv_discounts_from_period_one (cf : List ℚ) (r : ℚ) (h : -1 < r) :
    calculate_npv cf r
      = ∑ i ∈ Finset.range cf.length, cf.getD i 0 / (1 + r) ^ (i + 1)
    ∧ calculate_npv [100] 0 = 100 ∧ calculate_npv [100] 1 = 50 := by
  refine ⟨?_, ?_, ?_⟩
  · rw [calculate_npv, npv_enumFrom_sum]
    refine Finset.sum_congr rfl fun i _ => ?_
    ring_nf
  · norm_num [calculate_npv, List.enumFrom]
  · norm_num [calculate_npv, List.enumFrom]

/-- Witness for C3 at `cf = [100]`, `r = 0`. -/
theorem npv_discounts_from_period_one_witness :
    (-1 : ℚ) < 0
    ∧ (calculate_npv [100] 0
        = ∑ i ∈ Finset.range (List.length [(100 : ℚ)]),
            (List.getD [(100 : ℚ)] i 0) / (1 + 0) ^ (i + 1)
      ∧ calculate_npv [100] 0 = 100 ∧ calculate_npv [100] 1 = 50) :=
  ⟨by norm_num, npv_discounts_from_period_one [100] 0 (by norm_num)⟩

/-- C4: the funding estimator returns the fixed total 240,000,000 and the
unchanged cost table, regardless of the cash-flow series. -/
theorem funding_independent_of_cash_flows (cf : List ℚ) :
    estimate_funding_requirements cf CLINICAL_DEVELOPMENT_COSTS =
      { total_funding := 240000000, breakdown := CLINICAL_DEVELOPMENT_COSTS } := by
  simp only [estimate_funding_requirements, CLINICAL_DEVELOPMENT_COSTS,
    List.map_cons, List.map_nil, List.sum_cons, List.sum_nil,
    FundingRequirement.mk.injEq]
  norm_num

/-- C5: ROI is `(npv − ti) / ti × 100` for positive total investment and the
non-numeric sentinel (`none`) for zero total investment; `ROI(150, 100) = 50`. -/
theorem roi_formula_and_sentinel (npv total_investment : ℚ)
    (h : 0 ≤ total_investment) :
    (0 < total_investment → calculate_roi npv total_investment
        = some ((npv - total_investment) / total_investment * 100))
    ∧ (total_investment = 0 → calculate_roi npv total_investment = none)
    ∧ calculate_roi 150 100 = some 50 := by
  refine ⟨fun hpos => ?_, fun hz => ?_, ?_⟩
  · simp [calculate_roi, hpos]
  · simp [calculate_roi, hz]
  · norm_num [calculate_roi]

/-- Witness for C5 at `npv = 150`, `total_investment = 100`. -/
theorem roi_formula_and_sentinel_witness :
    (0 : ℚ) ≤ 100
    ∧ ((0 < (100 : ℚ) → calculate_roi 150 100
          = some ((150 - 100) / 100 * 100))
      ∧ ((100 : ℚ) = 0 → calculate_roi 150 100 = none)
      ∧ calculate_roi 150 100 = some 50) :=
  ⟨by norm_num, roi_formula_and_sentinel 150 100 (by norm_num)⟩

/-- C2 counterexample: with `peak_revenue = 100` and `ramp_years = 1` the ramp
phase is `[10]`, not `[100]` — `np.linspace(0.1, 1.0, 1)` yields the start
point `0.1`, not the top of the range. -/
theorem ramp_single_year_counterexample :
    ramp_curve 100 1 ≠ [100] ∧ ramp_curve 100 1 = [10] := by
  constructor <;> norm_num [ramp_curve, linspace]

/-- C2 amended: for every `peak_revenue ≥ 0`, when `ramp_years = 1` the ramp
phase is exactly `[0.1 × peak_revenue]` (the bottom of the interpolation
range, per numpy's single-sample convention). -/
theorem ramp_single_year_is_bottom (peak_revenue : ℚ) (h : 0 ≤ peak_revenue) :
    ramp_curve peak_revenue 1 = [peak_revenue * (1 / 10)] := by
  norm_num [ramp_curve, linspace]

/-- Witness for the amended C2 at `peak_revenue = 100`. -/
theorem ramp_single_year_is_bottom_witness :
    (0 : ℚ) ≤ 100 ∧ ramp_curve 100 1 = [100 * (1 / 10)] :=
  ⟨by norm_num, ramp_single_year_is_bottom 100 (by norm_num)⟩

/-- C8: the simulated series starts with `delay_years` copies of
`−500,000,000` (a constant independent of all asset parameters) and continues
with exactly the revenue curve of the same inputs. -/
theorem simulate_burn_then_revenue (eligible_population price_per_patient
    market_penetration : ℚ) (delay_years ramp_years peak_years
    decline_years : ℕ) (decline_rate : ℚ) :
    (simulate_pipeline_cash_flows eligible_population price_per_patient
        market_penetration delay_years ramp_years peak_years decline_years
        decline_rate).take delay_years
      = List.replicate delay_years (-500000000)
    ∧ (simulate_pipeline_cash_flows eligible_population price_per_patient
        market_penetration delay_years ramp_years peak_years decline_years
        decline_rate).drop delay_years
      = calculate_revenue_curve eligible_population price_per_patient
          market_penetration ramp_years peak_years decline_years decline_rate := by
  unfold simulate_pipeline_cash_flows
  constructor
  · rw [List.take_append_of_le_length (by simp), List.take_of_length_le (by simp)]
  · rw [List.drop_append_of_le_length (by simp)]
    simp

/-- C9: risk adjustment scales every element by the probability, preserves
length and order, and (being a pure list map) does not mutate its input. -/
theorem risk_adjust_elementwise (cash_flows : List ℚ) (p : ℚ)
    (h0 : 0 ≤ p) (h1 : p ≤ 1) :
    (risk_adjust cash_flows p).length = cash_flows.length
    ∧ ∀ i, (risk_adjust cash_flows p).getD i 0 = p * cash_flows.getD i 0 := by
  refine ⟨List.length_map _ _, fun i => ?_⟩
  simp only [risk_adjust, List.getD_eq_getElem?_getD, List.getElem?_map]
  cases cash_flows[i]? with
  | none => simp
  | some x => simp [mul_comm]

/-- Witness for C9 at `cash_flows = [3, -2]`, `p = 1/2`. -/
theorem risk_adjust_elementwise_witness :
    ((0 : ℚ) ≤ 1 / 2 ∧ (1 : ℚ) / 2 ≤ 1)
    ∧ ((risk_adjust [3, -2] (1 / 2)).length = List.length [(3 : ℚ), -2]
      ∧ ∀ i, (risk_adjust [3, -2] (1 / 2)).getD i 0
          = 1 / 2 * (List.getD [(3 : ℚ), -2] i 0)) :=
  ⟨⟨by norm_num, by norm_num⟩,
    risk_adjust_elementwise [3, -2] (1 / 2) (by norm_num) (by norm_num)⟩

/-- C6: the revenue curve has `peak_revenue = P × price × (m/100)`, is the
concatenation ramp ∥ peak ∥ decline in that order, has length `r + k + d`,
and every peak-phase value equals `peak_revenue` exactly. -/
theorem revenue_curve_structure (P price m : ℚ) (r k d : ℕ) (ρ : ℚ)
    (hP : 0 ≤ P) (hprice : 0 ≤ price) (hm0 : 0 ≤ m) (hm1 : m ≤ 100)
    (hr : 1 ≤ r) (hk : 1 ≤ k) (hd : 1 ≤ d) (hρ0 : 0 ≤ ρ) (hρ1 : ρ ≤ 1) :
    calculate_revenue_curve P price m r k d ρ
      = ramp_curve (P * price * (m / 100)) r
        ++ peak_curve (P * price * (m / 100)) k
        ++ decline_curve (P * price * (m / 100)) ρ d
    ∧ (calculate_revenue_curve P price m r k d ρ).length = r + k + d
    ∧ ∀ x ∈ peak_curve (P * price * (m / 100)) k, x = P * price * (m / 100) := by
  refine ⟨rfl, ?_, ?_⟩
  · simp [calculate_revenue_curve, ramp_curve, peak_curve, decline_curve,
      linspace_length]
    omega
  · intro x hx
    exact List.eq_of_mem_replicate hx

/-- Witness for C6 at `P = 1`, `price = 1`, `m = 100`, `r = k = d = 1`, `ρ = 0`. -/
theorem revenue_curve_structure_witness :
    ((0 : ℚ) ≤ 1 ∧ (0 : ℚ) ≤ 1 ∧ (0 : ℚ) ≤ 100 ∧ (100 : ℚ) ≤ 100
      ∧ 1 ≤ 1 ∧ 1 ≤ 1 ∧ 1 ≤ 1 ∧ (0 : ℚ) ≤ 0 ∧ (0 : ℚ) ≤ 1)
    ∧ (calculate_revenue_curve 1 1 100 1 1 1 0
        = ramp_curve (1 * 1 * (100 / 100)) 1
          ++ peak_curve (1 * 1 * (100 / 100)) 1
          ++ decline_curve (1 * 1 * (100 / 100)) 0 1
      ∧ (calculate_revenue_curve 1 1 100 1 1 1 0).length = 1 + 1 + 1
      ∧ ∀ x ∈ peak_curve (1 * 1 * (100 / 100)) 1, x = 1 * 1 * (100 / 100)) :=
  ⟨⟨by norm_num, by norm_num, by norm_num, by norm_num, le_refl 1, le_refl 1,
      le_refl 1, le_refl 0, by norm_num⟩,
    revenue_curve_structure 1 1 100 1 1 1 0 (by norm_num) (by norm_num)
      (by norm_num) (by norm_num) (le_refl 1) (le_refl 1) (le_refl 1)
      (le_refl 0) (by norm_num)⟩

/-- C7: the decline-phase value for year `t` is `peak_revenue × (1 − ρ)^t`;
with `ρ = 0` every decline value is `peak_revenue`, and with `ρ = 1` every
decline value — year 1 included — is `0`. -/
theorem decline_exponential_decay (pr ρ : ℚ) (d : ℕ)
    (hpr : 0 ≤ pr) (hd : 1 ≤ d) (hρ0 : 0 ≤ ρ) (hρ1 : ρ ≤ 1) :
    (∀ t, 1 ≤ t → t ≤ d →
      (decline_curve pr ρ d).getD (t - 1) 0 = pr * (1 - ρ) ^ t)
    ∧ (ρ = 0 → ∀ x ∈ decline_curve pr ρ d, x = pr)
    ∧ (ρ = 1 → ∀ x ∈ decline_curve pr ρ d, x = 0) := by
  refine ⟨fun t h1 h2 => ?_, fun hz x hx => ?_, fun ho x hx => ?_⟩
  · have hlt : t - 1 < d := by omega
    have ht : t - 1 + 1 = t := by omega
    simp [decline_curve, List.getD_eq_getElem?_getD, List.getElem?_map,
      List.getElem?_range hlt, ht]
  · simp only [decline_curve, List.mem_map, List.mem_range] at hx
    obtain ⟨i, _, rfl⟩ := hx
    rw [hz]
    norm_num
  · simp only [decline_curve, List.mem_map, List.mem_range] at hx
    obtain ⟨i, _, rfl⟩ := hx
    rw [ho, sub_self, zero_pow (by omega : i + 1 ≠ 0), mul_zero]

/-- Witness for C7 at `pr = 2`, `ρ = 1`, `d = 1`. -/
theorem decline_exponential_decay_witness :
    ((0 : ℚ) ≤ 2 ∧ 1 ≤ 1 ∧ (0 : ℚ) ≤ 1 ∧ (1 : ℚ) ≤ 1)
    ∧ ((∀ t, 1 ≤ t → t ≤ 1 →
          (decline_curve 2 1 1).getD (t - 1) 0 = 2 * (1 - 1) ^ t)
      ∧ ((1 : ℚ) = 0 → ∀ x ∈ decline_curve 2 1 1, x = 2)
      ∧ ((1 : ℚ) = 1 → ∀ x ∈ decline_curve 2 1 1, x = 0)) :=
  ⟨⟨by norm_num, le_refl 1, by norm_num, le_refl 1⟩,
    decline_exponential_decay 2 1 1 (by norm_num) (le_refl 1) (by norm_num)
      (le_refl 1)⟩

lemma aggregate_foldl (assets : List Asset) (acc : List ℚ × ℚ) :
    assets.foldl aggregateStep acc
      = (acc.1 ++ (assets.map fun a =>
            risk_adjust (assetRawCashFlows a) (assetProbability a)).flatten,
         acc.2 + (assets.map fun a =>
            |((assetRawCashFlows a).filter fun cf => cf < 0).sum|).sum) := by
  induction assets generalizing acc with
  | nil => simp
  | cons a t ih =>
      rw [List.foldl_cons, ih]
      simp [aggregateStep, List.append_assoc, add_assoc]

/-- C1: for 1 to 10 assets, the portfolio series is the flat concatenation of
the assets' risk-adjusted series in asset order, the portfolio NPV is a single
NPV computation over that concatenation, and `total_investment` is the sum
over assets of `|sum of negative raw entries|`. -/
theorem portfolio_flat_concatenation (assets : List Asset)
    (h1 : 1 ≤ assets.length) (h2 : assets.length ≤ 10) :
    (aggregate assets).1
      = (assets.map fun a =>
          risk_adjust (assetRawCashFlows a) (assetProbability a)).flatten
    ∧ (aggregate assets).2
      = (assets.map fun a =>
          |((assetRawCashFlows a).filter fun cf => cf < 0).sum|).sum
    ∧ portfolio_npv assets
      = calculate_npv
          ((assets.map fun a =>
            risk_adjust (assetRawCashFlows a) (assetProbability a)).flatten)
          DEFAULT_DISCOUNT_RATE := by
  have h := aggregate_foldl assets ([], 0)
  refine ⟨?_, ?_, ?_⟩
  · rw [aggregate, h]
    simp
  · rw [aggregate, h]
    simp
  · rw [portfolio_npv, aggregate, h]
    simp

/-- The end-to-end sample asset of the specification: not rare, Phase 1,
population 1000, price 100000, penetration 50, ramp 6, peak 7, decline 8,
decline rate 0.1. -/
def sampleAsset : Asset where
  rare_disease := false
  phase := .phase1
  eligible_population := 1000
  market_penetration := 50
  price_per_patient := 100000
  ramp_years := 6
  peak_years := 7
  decline_years := 8
  decline_rate := 1 / 10

/-- Witness for C1 on the one-asset portfolio `[sampleAsset]`. -/
theorem portfolio_flat_concatenation_witness :
    (1 ≤ List.length [sampleAsset] ∧ List.length [sampleAsset] ≤ 10)
    ∧ ((aggregate [sampleAsset]).1
        = ([sampleAsset].map fun a =>
            risk_adjust (assetRawCashFlows a) (assetProbability a)).flatten
      ∧ (aggregate [sampleAsset]).2
        = ([sampleAsset].map fun a =>
            |((assetRawCashFlows a).filter fun cf => cf < 0).sum|).sum
      ∧ portfolio_npv [sampleAsset]
        = calculate_npv
            (([sampleAsset].map fun a =>
              risk_adjust (assetRawCashFlows a) (assetProbability a)).flatten)
            DEFAULT_DISCOUNT_RATE) :=
  ⟨⟨by simp, by simp⟩,
    portfolio_flat_concatenation [sampleAsset] (by simp) (by simp)⟩

/-- The range constraints the input boundary guarantees for one asset. -/
def ValidAsset (a : Asset) : Prop :=
  0 ≤ a.eligible_population ∧ 0 ≤ a.price_per_patient
    ∧ 0 ≤ a.market_penetration ∧ a.market_penetration ≤ 100
    ∧ 0 ≤ a.decline_rate ∧ a.decline_rate ≤ 1

lemma linspace_ramp_nonneg (n : ℕ) :
    ∀ x ∈ linspace (1 / 10) 1 n, (0 : ℚ) ≤ x := by
  intro x hx
  unfold linspace at hx
  split at hx
  · rw [List.mem_singleton] at hx
    rw [hx]
    norm_num
  · simp only [List.mem_map, List.mem_range] at hx
    obtain ⟨i, hi, rfl⟩ := hx
    have hn2 : 2 ≤ n := by omega
    have hpos : (0 : ℚ) < (n : ℚ) - 1 := by
      have h2 : (2 : ℚ) ≤ (n : ℚ) := by exact_mod_cast hn2
      linarith
    have hstep : (0 : ℚ) ≤ (1 - 1 / 10) * (i : ℚ) / ((n : ℚ) - 1) :=
      div_nonneg (mul_nonneg (by norm_num) (Nat.cast_nonneg i)) hpos.le
    linarith

lemma revenue_curve_nonneg (P price m : ℚ) (r k d : ℕ) (ρ : ℚ)
    (hP : 0 ≤ P) (hprice : 0 ≤ price) (hm0 : 0 ≤ m) (hρ1 : ρ ≤ 1) :
    ∀ x ∈ calculate_revenue_curve P price m r k d ρ, 0 ≤ x := by
  intro x hx
  have hpr : 0 ≤ P * price * (m / 100) :=
    mul_nonneg (mul_nonneg hP hprice) (by positivity)
  simp only [calculate_revenue_curve, List.mem_append] at hx
  rcases hx with (hx | hx) | hx
  · simp only [ramp_curve, List.mem_map] at hx
    obtain ⟨p, hp, rfl⟩ := hx
    exact mul_nonneg hpr (linspace_ramp_nonneg _ p hp)
  · exact List.eq_of_mem_replicate hx ▸ hpr
  · simp only [decline_curve, List.mem_map, List.mem_range] at hx
    obtain ⟨i, _, rfl⟩ := hx
    exact mul_nonneg hpr (pow_nonneg (by linarith) _)

lemma assetRawCashFlows_nonneg (a : Asset) (h : ValidAsset a) :
    ∀ x ∈ assetRawCashFlows a, 0 ≤ x := by
  intro x hx
  rw [assetRawCashFlows, simulate_pipeline_cash_flows, List.replicate_zero,
    List.nil_append] at hx
  exact revenue_curve_nonneg _ _ _ _ _ _ _ h.1 h.2.1 h.2.2.1 h.2.2.2.2.2 x hx

lemma filter_neg_of_nonneg (l : List ℚ) (h : ∀ x ∈ l, 0 ≤ x) :
    (l.filter fun cf => cf < 0) = [] := by
  rw [List.filter_eq_nil_iff]
  intro x hx
  simp only [decide_eq_true_eq, not_lt]
  exact h x hx

/-- C10: with `delay_years = 0` (as `main` always passes) every simulated
cash flow of a range-valid asset is non-negative; hence `total_investment`
is `0` for every portfolio and the reported ROI is the `nan` sentinel. -/
theorem nonneg_flows_zero_investment_nan_roi (assets : List Asset)
    (hv : ∀ a ∈ assets, ValidAsset a) :
    (∀ a ∈ assets, ∀ x ∈ assetRawCashFlows a, 0 ≤ x)
    ∧ (aggregate assets).2 = 0
    ∧ portfolio_roi assets = none := by
  have hnn : ∀ a ∈ assets, ∀ x ∈ assetRawCashFlows a, 0 ≤ x :=
    fun a ha => assetRawCashFlows_nonneg a (hv a ha)
  have hti : (aggregate assets).2 = 0 := by
    rw [aggregate, aggregate_foldl]
    simp only [zero_add]
    apply List.sum_eq_zero
    intro x hx
    simp only [List.mem_map] at hx
    obtain ⟨a, ha, rfl⟩ := hx
    rw [filter_neg_of_nonneg _ (hnn a ha)]
    simp
  refine ⟨hnn, hti, ?_⟩
  rw [portfolio_roi, hti]
  simp [calculate_roi]

/-- Witness for C10 on the one-asset portfolio `[sampleAsset]`. -/
theorem nonneg_flows_zero_investment_nan_roi_witness :
    (∀ a ∈ [sampleAsset], ValidAsset a)
    ∧ ((∀ a ∈ [sampleAsset], ∀ x ∈ assetRawCashFlows a, 0 ≤ x)
      ∧ (aggregate [sampleAsset]).2 = 0
      ∧ portfolio_roi [sampleAsset] = none) :=
  ⟨by intro a ha
      rw [List.mem_singleton] at ha
      subst ha
      exact ⟨by norm_num [sampleAsset], by norm_num [sampleAsset],
        by norm_num [sampleAsset], by norm_num [sampleAsset],
        by norm_num [sampleAsset], by norm_num [sampleAsset]⟩,
    nonneg_flows_zero_investment_nan_roi [sampleAsset]
      (by intro a ha
          rw [List.mem_singleton] at ha
          subst ha
          exact ⟨by norm_num [sampleAsset], by norm_num [sampleAsset],
            by norm_num [sampleAsset], by norm_num [sampleAsset],
            by norm_num [sampleAsset], by norm_num [sampleAsset]⟩)⟩

end PharmaModel
